import Mathlib

/-!
Shallow embedding of the client-side remote event bus and RPC multiplexer
(class `NuclideRemoteEventbus`, src/unnamed/part_002) and proofs of the
frozen claims about it.

Modelling conventions:
* JavaScript values that flow through the bus are modelled by `JsValue`;
  JS truthiness is `jsTruthy`.
* A JS exception escaping a function is modelled by `Except JsErr`; the
  only exception kind the claims need is the `TypeError` raised by a
  property access on `undefined` or `null`.
* Node `EventEmitter.emit` calls performed by the message router are
  recorded as `Dispatch` effects (the router's observable output);
  `once`-listener state that the router itself mutates (the per-request
  RPC listeners and the per-id stream emitter table) lives in `BusState`.
* Promise settlement is settle-once, as in ECMAScript: `settle` ignores a
  second resolution or rejection.
-/

namespace Nuclide

/-- A JavaScript value, as far as the bus inspects one. -/
inductive JsValue
  | undefined
  | null
  | bool (b : Bool)
  | num (n : Nat)
  | str (s : String)
  deriving DecidableEq

/-- JS truthiness of a `JsValue` (used by `error ? reject(error) : resolve(result)`
and by `if (event && event.eventEmitterId)`). -/
def jsTruthy : JsValue → Bool
  | .undefined => false
  | .null => false
  | .bool b => b
  | .num n => n != 0
  | .str s => s != ""

/-- A JavaScript exception escaping a function; the bus only ever raises
TypeErrors (property access on undefined/null). -/
inductive JsErr
  | typeError
  deriving DecidableEq

/-- Modelled from the spec: the config module (`require('./config')`) is not
part of the sources; the three channel discriminators are distinct opaque
strings. -/
def SERVICE_FRAMEWORK_RPC_CHANNEL : String := "service_framework/rpc"

/-- Modelled from the spec: second channel constant from the missing config
module. -/
def SERVICE_FRAMEWORK_EVENT_CHANNEL : String := "service_framework/event"

/-- Modelled from the spec: third channel constant from the missing config
module. -/
def SERVICE_FRAMEWORK3_CHANNEL : String := "service_framework3"

/-- Modelled from the spec: the default RPC timeout in milliseconds supplied
by the missing config module (spec §6: "a default RPC timeout"). -/
def SERVICE_FRAMEWORK_RPC_TIMEOUT_MS : Nat := 60000

/-- The `event` field of an inbound wire message; each sub-field may be
absent (JS `undefined`). -/
structure EventField where
  name : Option String
  args : List JsValue
  eventEmitterId : Option Nat
  type : Option String
  deriving DecidableEq

/-- An inbound wire message as destructured by `_handleSocketMessage`:
`var {channel, event} = message`, and per-branch `requestId`, `error`,
`result`, `hadError`. Fields that a branch dereferences are `Option`s so a
missing field (JS `undefined`) is representable. -/
structure Message where
  channel : Option String
  requestId : Option Nat
  error : JsValue
  result : JsValue
  hadError : JsValue
  event : Option EventField
  deriving DecidableEq

/-- The state of one stream/object emitter held in `_eventEmitters`: the
terminal event names whose pending `once` handler deletes the table entry
(`eventEmitter.once(disposeEventName, () => delete this._eventEmitters[id])`). -/
structure EmitterObj where
  onceDispose : List String
  deriving DecidableEq

/-- Association-list lookup for the `_eventEmitters` table. -/
def tblLookup (t : List (Nat × EmitterObj)) (k : Nat) : Option EmitterObj :=
  match t with
  | [] => none
  | (k2, v) :: rest => if k2 = k then some v else tblLookup rest k

/-- Association-list deletion, modelling `delete this._eventEmitters[k]`. -/
def tblErase (t : List (Nat × EmitterObj)) (k : Nat) : List (Nat × EmitterObj) :=
  match t with
  | [] => []
  | (k2, v) :: rest => if k2 = k then tblErase rest k else (k2, v) :: tblErase rest k

/-- Association-list overwrite, modelling `this._eventEmitters[k] = v`. -/
def tblInsert (t : List (Nat × EmitterObj)) (k : Nat) (v : EmitterObj) :
    List (Nat × EmitterObj) :=
  (k, v) :: tblErase t k

/-- Mutable state of one `NuclideRemoteEventbus` instance: `socket` is
`true` while `this.socket` is non-null, `rpcRequestId` is `_rpcRequestId`,
`pendingRpc` lists the request ids with a live `once` listener on
`_serviceFrameworkRpcEmitter`, and `eventEmitters` is `_eventEmitters`. -/
structure BusState where
  socket : Bool
  rpcRequestId : Nat
  pendingRpc : List Nat
  eventEmitters : List (Nat × EmitterObj)
  deriving DecidableEq

/-- State established by the constructor: socket open, `_rpcRequestId = 1`,
empty listener and emitter tables. -/
def busInit : BusState :=
  { socket := true, rpcRequestId := 1, pendingRpc := [], eventEmitters := [] }

/-- One `emit` performed by the message router, identifying the downstream
object invoked and the payload handed to it. -/
inductive Dispatch
  | rpcResponse (requestId : Nat) (error result : JsValue)
  | sfEvent (name : Option String) (args : List JsValue)
  | sf3Response (requestId : Nat) (hadError error result : JsValue)
  | emitterDeliver (id : Nat) (type : Option String) (args : List JsValue)
  | logError (what : String)
  | channelBus (channel : Option String) (event : Option EventField)
  deriving DecidableEq

/-- The destination class of a dispatch effect (the four destinations of
spec §4.1 plus the log-and-drop path). -/
inductive Target
  | rpc
  | sfEvent
  | sf3
  | emitter
  | bus
  | log
  deriving DecidableEq

/-- Destination class of one dispatch effect. -/
def Dispatch.target : Dispatch → Target
  | .rpcResponse _ _ _ => .rpc
  | .sfEvent _ _ => .sfEvent
  | .sf3Response _ _ _ _ => .sf3
  | .emitterDeliver _ _ _ => .emitter
  | .logError _ => .log
  | .channelBus _ _ => .bus

/-- State effect of `eventEmitter.emit.apply(eventEmitter, [type].concat(args))`
on a stream emitter found in the table: if the emitted type matches a pending
terminal `once` handler, that handler deletes the table entry; otherwise the
table is unchanged. -/
def emitterEmitState (s : BusState) (eid : Nat) (em : EmitterObj) (ty : Option String) :
    BusState :=
  match ty with
  | some t =>
      if t ∈ em.onceDispose then
        { s with eventEmitters := tblErase s.eventEmitters eid }
      else s
  | none => s

/-- Embedding of `_handleSocketMessage` (part_002 lines 59-89). Returns the
new bus state and the list of emits performed, or the TypeError thrown by a
property access on a missing field (`requestId.toString()` when `requestId`
is undefined, `event.name` when `event` is undefined). -/
def handleSocketMessage (s : BusState) (m : Message) :
    Except JsErr (BusState × List Dispatch) :=
  if m.channel = some SERVICE_FRAMEWORK_RPC_CHANNEL then
    match m.requestId with
    | none => .error .typeError
    | some rid =>
        .ok ({ s with pendingRpc := s.pendingRpc.erase rid },
             [.rpcResponse rid m.error m.result])
  else if m.channel = some SERVICE_FRAMEWORK_EVENT_CHANNEL then
    match m.event with
    | none => .error .typeError
    | some ev => .ok (s, [.sfEvent ev.name ev.args])
  else if m.channel = some SERVICE_FRAMEWORK3_CHANNEL then
    match m.requestId with
    | none => .error .typeError
    | some rid => .ok (s, [.sf3Response rid m.hadError m.error m.result])
  else
    match m.event with
    | some ev =>
        match ev.eventEmitterId with
        | some eid =>
            if eid ≠ 0 then
              match tblLookup s.eventEmitters eid with
              | none => .ok (s, [.logError "eventEmitter not found"])
              | some em =>
                  .ok (emitterEmitState s eid em ev.type,
                       [.emitterDeliver eid ev.type ev.args,
                        .channelBus m.channel m.event])
            else .ok (s, [.channelBus m.channel m.event])
        | none => .ok (s, [.channelBus m.channel m.event])
    | none => .ok (s, [.channelBus m.channel m.event])

/-- Destination classes of a router invocation that did not throw. -/
def dispatchTargets (r : Except JsErr (BusState × List Dispatch)) : List Target :=
  match r with
  | .ok (_, effs) => effs.map Dispatch.target
  | .error _ => []

/-- Whether a channel value is one of the three structured discriminators. -/
def knownChannel (c : Option String) : Bool :=
  c = some SERVICE_FRAMEWORK_RPC_CHANNEL ||
  c = some SERVICE_FRAMEWORK_EVENT_CHANNEL ||
  c = some SERVICE_FRAMEWORK3_CHANNEL

/-- Required-field predicate for the amended never-throws claim: each
structured channel dereferences one field that must be present. -/
def envelopeFieldsOk (m : Message) : Bool :=
  if m.channel = some SERVICE_FRAMEWORK_RPC_CHANNEL then m.requestId.isSome
  else if m.channel = some SERVICE_FRAMEWORK_EVENT_CHANNEL then m.event.isSome
  else if m.channel = some SERVICE_FRAMEWORK3_CHANNEL then m.requestId.isSome
  else true

/-- Settlement status of one returned promise. -/
inductive Settlement
  | unsettled
  | resolvedWith (v : JsValue)
  | rejectedWith (e : JsValue)
  deriving DecidableEq

/-- Settle-once semantics of an ECMAScript promise: a second resolve or
reject is ignored. -/
def settle : Settlement → Settlement → Settlement
  | .unsettled, out => out
  | .resolvedWith v, _ => .resolvedWith v
  | .rejectedWith e, _ => .rejectedWith e

/-- The rejection string built at part_002 line 177:
`Timeout after ${timeout} for ${serviceName}/${methodName}`. -/
def timeoutMessage (timeout : Nat) (serviceName methodName : String) : String :=
  "Timeout after " ++ toString timeout ++ " for " ++ serviceName ++ "/" ++ methodName

/-- Outcome of the response listener body at part_002 line 172:
`error ? reject(error) : resolve(result)`. -/
def responseOutcome (error result : JsValue) : Settlement :=
  if jsTruthy error then .rejectedWith error else .resolvedWith result

/-- State of one in-flight `callServiceFrameworkMethod` promise: the id it
was sent with, whether its `once` listener on `_serviceFrameworkRpcEmitter`
is still registered, whether its `setTimeout` timer is still pending, and
the promise settlement. -/
structure CallState where
  rid : Nat
  listener : Bool
  timerPending : Bool
  settlement : Settlement
  deriving DecidableEq

/-- State right after the promise executor of part_002 lines 170-178 ran:
`once` listener registered, timer armed, promise unsettled. -/
def initCall (requestId : Nat) : CallState :=
  { rid := requestId, listener := true, timerPending := true, settlement := .unsettled }

/-- An asynchronous event observable by one in-flight call: an inbound
rpc-response envelope re-emitted by the router under some request id, or
the firing of the call's own timeout timer. -/
inductive CallEvent
  | response (requestId : Nat) (error result : JsValue)
  | timerFire
  deriving DecidableEq

/-- One event-loop step for one in-flight call. A matching response while
the `once` listener is live removes the listener and runs
`error ? reject(error) : resolve(result)`; the timer firing runs
`removeAllListeners(requestId.toString())` and rejects with the timeout
string. Both resolutions go through promise settle-once semantics. -/
def stepCall (serviceName methodName : String) (timeout : Nat)
    (s : CallState) (e : CallEvent) : CallState :=
  match e with
  | .response r err res =>
      if r = s.rid ∧ s.listener = true then
        { s with
          listener := false,
          settlement := settle s.settlement (responseOutcome err res) }
      else s
  | .timerFire =>
      if s.timerPending = true then
        { s with
          listener := false,
          timerPending := false,
          settlement := settle s.settlement
            (.rejectedWith (.str (timeoutMessage timeout serviceName methodName))) }
      else s

/-- Run a sequence of asynchronous events against one in-flight call. -/
def runCall (serviceName methodName : String) (timeout : Nat)
    (s : CallState) (evs : List CallEvent) : CallState :=
  evs.foldl (stepCall serviceName methodName timeout) s

/-- Specification-side outcome: the settlement dictated by the first
effective event in the sequence (first matching response, or first timer
fire), `unsettled` when neither occurs. -/
def firstOutcome (serviceName methodName : String) (timeout : Nat) (rid : Nat) :
    List CallEvent → Settlement
  | [] => .unsettled
  | .response r err res :: rest =>
      if r = rid then responseOutcome err res
      else firstOutcome serviceName methodName timeout rid rest
  | .timerFire :: _ => .rejectedWith (.str (timeoutMessage timeout serviceName methodName))

/-- Embedding of `this._rpcRequestId++` (part_002 lines 56 and 160):
returns the current counter value and bumps the stored counter. -/
def allocRequestId (s : BusState) : Nat × BusState :=
  (s.rpcRequestId, { s with rpcRequestId := s.rpcRequestId + 1 })

/-- The correlation-id generator closure handed to the ServiceFramework
ClientComponent at construction: `() => this._rpcRequestId++`. -/
def clientComponentNextId (s : BusState) : Nat × BusState :=
  allocRequestId s

/-- Which code path asked for a fresh correlation id. -/
inductive AllocSource
  | sfmCall
  | clientGen
  deriving DecidableEq

/-- Allocate one id through the named path; both paths share the single
`_rpcRequestId` counter. -/
def allocVia : AllocSource → BusState → Nat × BusState
  | .sfmCall, s => allocRequestId s
  | .clientGen, s => clientComponentNextId s

/-- Ids handed out by a sequence of allocations against one instance. -/
def allocTrace (s : BusState) : List AllocSource → List Nat
  | [] => []
  | src :: rest =>
      let p := allocVia src s
      p.1 :: allocTrace p.2 rest

/-- The xhr request `callMethod` hands to `socket.xhrRequest`; argument
serialization (`serializeArgs`, an external collaborator from './utils')
is kept abstract by carrying the raw method arguments. -/
structure XhrRequest where
  uri : String
  methodArgs : List JsValue
  method : String
  deriving DecidableEq

/-- Synchronously observable outcome of `callMethod` (part_002 lines
125-150): on a null socket it logs and returns (the async function
resolves with `undefined`, sending nothing); otherwise it issues the xhr
request. -/
inductive CallMethodResult
  | closedNoSend
  | sendXhr (req : XhrRequest)
  deriving DecidableEq

/-- Embedding of `callMethod`: the guard `if (!this.socket)` logs and
returns undefined; otherwise an xhr request with uri
`serviceName + '/' + methodName` and method GET is issued. -/
def callMethod (s : BusState) (serviceName methodName : String)
    (methodArgs : List JsValue) : CallMethodResult :=
  if s.socket = false then .closedNoSend
  else .sendXhr
    { uri := serviceName ++ "/" ++ methodName, methodArgs := methodArgs, method := "GET" }

/-- How the promise returned by `callMethod` starts out. -/
inductive PromiseStart
  | resolvedUndefined
  | rejectedErr (e : JsErr)
  | awaitingXhr (req : XhrRequest)
  deriving DecidableEq

/-- The promise behaviour corresponding to each `callMethod` outcome:
the closed path resolves with `undefined`, the open path awaits the xhr. -/
def callMethodPromise : CallMethodResult → PromiseStart
  | .closedNoSend => .resolvedUndefined
  | .sendXhr req => .awaitingXhr req

/-- The envelope `callServiceFrameworkMethod` sends over the socket
(part_002 lines 162-168); `serviceOptions` is opaque and omitted. -/
structure RpcSend where
  serviceName : String
  methodName : String
  methodArgs : List JsValue
  requestId : Nat
  deriving DecidableEq

/-- Embedding of the synchronous phase of `callServiceFrameworkMethod`
(part_002 lines 152-179): line 160 increments `_rpcRequestId` first; then
`this.socket.send(...)` either throws a TypeError (socket already nulled
by `close`) before any promise executor runs, or sends the envelope, after
which the executor registers the `once` listener and arms the timer. -/
def callServiceFrameworkMethodSend (s : BusState) (serviceName methodName : String)
    (methodArgs : List JsValue) : BusState × Except JsErr (RpcSend × CallState) :=
  let p := allocRequestId s
  if p.2.socket = false then
    (p.2, .error .typeError)
  else
    ({ p.2 with pendingRpc := p.1 :: p.2.pendingRpc },
     .ok ({ serviceName := serviceName, methodName := methodName,
            methodArgs := methodArgs, requestId := p.1 },
          initCall p.1))

/-- Embedding of `close` (part_002 lines 255-258): `this.socket.close()`
throws a TypeError when the socket was already nulled by a previous call;
otherwise the socket is closed and nulled. No pending request is touched. -/
def close (s : BusState) : Except JsErr BusState :=
  if s.socket = false then .error .typeError
  else .ok { s with socket := false }

/-- State of one `registerEventListener` subscription (part_002 lines
109-123): whether the local callback is still on
`serviceFrameworkEventEmitter`, whether the subscribeEvent RPC promise has
resolved, whether the returned disposable ran, and whether the
unsubscribeEvent RPC was issued. -/
structure SubscriptionState where
  listenerActive : Bool
  subscribeResolved : Bool
  disposed : Bool
  unsubscribeSent : Bool
  deriving DecidableEq

/-- State right after `registerEventListener` returned: callback attached,
subscribeEvent call in flight, not disposed. -/
def subInit : SubscriptionState :=
  { listenerActive := true, subscribeResolved := false,
    disposed := false, unsubscribeSent := false }

/-- An asynchronous event in the life of one subscription: the
subscribeEvent call settling, the disposable's `dispose` running, or the
event loop running the continuation `subscribePromise.then(() =>
unsubscribe)`. The continuation may be scheduled at any time but only
takes effect once the disposable created it and the subscribe promise has
resolved. -/
inductive SubEvent
  | subscribeAck
  | dispose
  | thenContinuation
  deriving DecidableEq

/-- One event-loop step for a subscription. `dispose` synchronously runs
`removeListener` and chains the unsubscribe continuation on
`subscribePromise`; the continuation fires at most once and only after the
subscribe promise resolved. -/
def stepSub (s : SubscriptionState) : SubEvent → SubscriptionState
  | .subscribeAck => { s with subscribeResolved := true }
  | .dispose => { s with listenerActive := false, disposed := true }
  | .thenContinuation =>
      if s.disposed = true ∧ s.subscribeResolved = true ∧ s.unsubscribeSent = false then
        { s with unsubscribeSent := true }
      else s

/-- Run a sequence of asynchronous events against one subscription. -/
def runSub (s : SubscriptionState) (evs : List SubEvent) : SubscriptionState :=
  evs.foldl stepSub s

/-- Embedding of the synchronous phase of `consumeEventEmitter` (part_002
lines 236-253): a fresh emitter is stored in `_eventEmitters` under the
given id and its terminal `once` handlers are attached, all before
`await this._callSubscribe(...)` suspends. -/
def consumeEventEmitterSync (s : BusState) (eventEmitterId : Nat)
    (disposeEventNames : List String) : BusState :=
  { s with
    eventEmitters :=
      tblInsert s.eventEmitters eventEmitterId { onceDispose := disposeEventNames } }

/-- Embedding of the synchronous phase of `consumeStream` (part_002 lines
226-229): `consumeEventEmitter(streamId, ['data','error','close','end'], ['end'])`. -/
def consumeStreamSync (s : BusState) (streamId : Nat) : BusState :=
  consumeEventEmitterSync s streamId ["end"]

/-- Channel name for stream events, part_002 line 261:
`'event_emitter/' + id`. -/
def eventEmitterChannel (id : Nat) : String :=
  "event_emitter/" ++ toString id

/-- Whether an `Except` result carries a value (the function returned
without throwing). -/
def isOkB (r : Except JsErr (BusState × List Dispatch)) : Bool :=
  match r with
  | .ok _ => true
  | .error _ => false

/-- Bus state after `close()` ran once on a fresh instance. -/
def closedBus : BusState :=
  { socket := false, rpcRequestId := 1, pendingRpc := [], eventEmitters := [] }

/-- Bus state with one RPC call (id 1) still pending. -/
def busPending1 : BusState :=
  { socket := true, rpcRequestId := 2, pendingRpc := [1], eventEmitters := [] }

/-- Stream emitter for id 42 as created by `consumeStream(42)`: terminal
event name `end`. -/
def emitter42 : EmitterObj := { onceDispose := ["end"] }

/-- Bus state with the stream emitter 42 registered. -/
def busWith42 : BusState :=
  { socket := true, rpcRequestId := 1, pendingRpc := [], eventEmitters := [(42, emitter42)] }

/-- The `event` payload of an inbound stream-event envelope. -/
def streamEvent (eid : Nat) (ty : String) : EventField :=
  { name := none, args := [], eventEmitterId := some eid, type := some ty }

/-- An inbound stream-event envelope for emitter `eid`, arriving on the
channel `eventEmitterChannel eid`. -/
def streamMsg (eid : Nat) (ty : String) : Message :=
  { channel := some (eventEmitterChannel eid), requestId := none, error := .undefined,
    result := .undefined, hadError := .undefined, event := some (streamEvent eid ty) }

/-- An rpc-response envelope carrying a request id and a string result. -/
def rpcRespMsg (rid : Nat) : Message :=
  { channel := some SERVICE_FRAMEWORK_RPC_CHANNEL, requestId := some rid,
    error := .undefined, result := .str "ok", hadError := .undefined, event := none }

/-- An rpc-response envelope with the required `requestId` field missing. -/
def noReqIdMsg : Message :=
  { channel := some SERVICE_FRAMEWORK_RPC_CHANNEL, requestId := none,
    error := .undefined, result := .undefined, hadError := .undefined, event := none }

/-- An envelope with no structured channel and no event payload, served by
the generic channel bus alone. -/
def genericMsg : Message :=
  { channel := some "some_channel", requestId := none, error := .undefined,
    result := .undefined, hadError := .undefined, event := none }

/-! ## Helper lemmas -/

theorem settle_of_settled (s out : Settlement) (h : s ≠ Settlement.unsettled) :
    settle s out = s := by
  cases s with
  | unsettled => exact absurd rfl h
  | resolvedWith v => rfl
  | rejectedWith e => rfl

theorem responseOutcome_ne_unsettled (err res : JsValue) :
    responseOutcome err res ≠ Settlement.unsettled := by
  unfold responseOutcome
  split <;> intro h <;> exact Settlement.noConfusion h

theorem stepCall_of_settled (serviceName methodName : String) (timeout : Nat)
    (s : CallState) (e : CallEvent) (h : s.settlement ≠ Settlement.unsettled) :
    (stepCall serviceName methodName timeout s e).settlement = s.settlement := by
  cases e with
  | response r err res =>
      by_cases hc : r = s.rid ∧ s.listener = true
      · simp only [stepCall, if_pos hc]
        exact settle_of_settled _ _ h
      · simp only [stepCall, if_neg hc]
  | timerFire =>
      by_cases hc : s.timerPending = true
      · simp only [stepCall, if_pos hc]
        exact settle_of_settled _ _ h
      · simp only [stepCall, if_neg hc]

theorem runCall_of_settled (serviceName methodName : String) (timeout : Nat)
    (evs : List CallEvent) :
    ∀ s : CallState, s.settlement ≠ Settlement.unsettled →
      (runCall serviceName methodName timeout s evs).settlement = s.settlement := by
  induction evs with
  | nil => intro s _; rfl
  | cons e rest ih =>
      intro s h
      have hstep := stepCall_of_settled serviceName methodName timeout s e h
      show (runCall serviceName methodName timeout
        (stepCall serviceName methodName timeout s e) rest).settlement = s.settlement
      rw [ih _ (by rw [hstep]; exact h), hstep]

/-! ## C1 -/

/-- C1: For every call issued through `callServiceFrameworkMethod` with
timeout T, the returned promise settles exactly once: run against any
sequence of asynchronous events, its settlement equals the outcome of the
first effective event — a matching rpc-response (resolve with result or
reject with error) or the timer firing (reject with the timeout string
naming service, method and duration) — and every later event, including a
response arriving after the timeout, leaves the settlement unchanged. -/
theorem call_settles_exactly_once (serviceName methodName : String) (timeout : Nat)
    (rid : Nat) (evs : List CallEvent) :
    (runCall serviceName methodName timeout (initCall rid) evs).settlement =
      firstOutcome serviceName methodName timeout rid evs := by
  induction evs with
  | nil => rfl
  | cons e rest ih =>
      cases e with
      | response r err res =>
          by_cases hr : r = rid
          · subst hr
            have hstep : stepCall serviceName methodName timeout (initCall r)
                (CallEvent.response r err res) =
                { rid := r, listener := false, timerPending := true,
                  settlement := responseOutcome err res } := by
              simp only [stepCall, initCall, if_pos (And.intro rfl rfl)]
              rfl
            show (runCall serviceName methodName timeout
              (stepCall serviceName methodName timeout (initCall r)
                (CallEvent.response r err res)) rest).settlement = _
            rw [hstep,
              runCall_of_settled serviceName methodName timeout rest _
                (responseOutcome_ne_unsettled err res)]
            simp [firstOutcome]
          · have hstep : stepCall serviceName methodName timeout (initCall rid)
                (CallEvent.response r err res) = initCall rid := by
              simp only [stepCall]
              rw [if_neg]
              intro hc
              exact hr hc.1
            show (runCall serviceName methodName timeout
              (stepCall serviceName methodName timeout (initCall rid)
                (CallEvent.response r err res)) rest).settlement = _
            rw [hstep, ih]
            simp [firstOutcome, hr]
      | timerFire =>
          have hstep : stepCall serviceName methodName timeout (initCall rid)
              CallEvent.timerFire =
              { rid := rid, listener := false, timerPending := false,
                settlement := Settlement.rejectedWith
                  (.str (timeoutMessage timeout serviceName methodName)) } := by
            simp only [stepCall, initCall, if_pos rfl]
            rfl
          show (runCall serviceName methodName timeout
            (stepCall serviceName methodName timeout (initCall rid)
              CallEvent.timerFire) rest).settlement = _
          rw [hstep,
            runCall_of_settled serviceName methodName timeout rest _
              (by intro h; exact Settlement.noConfusion h)]
          rfl

/-! ## C2 -/

theorem allocVia_eq (src : AllocSource) (s : BusState) :
    allocVia src s = (s.rpcRequestId, { s with rpcRequestId := s.rpcRequestId + 1 }) := by
  cases src <;> rfl

theorem allocTrace_range (srcs : List AllocSource) :
    ∀ s : BusState, allocTrace s srcs = List.range' s.rpcRequestId srcs.length := by
  induction srcs with
  | nil => intro s; rfl
  | cons src rest ih =>
      intro s
      show (allocVia src s).1 :: allocTrace (allocVia src s).2 rest = _
      rw [allocVia_eq, List.length_cons, List.range'_succ, ih]

/-- C2: Correlation ids come from the single `_rpcRequestId` counter
initialized to 1 by the constructor: any sequence of allocations on one
instance — whether through `callServiceFrameworkMethod` or the id
generator handed to the ServiceFramework ClientComponent — yields the ids
1, 2, 3, ..., so every call receives a strictly larger id than every
earlier call and no id is ever reused. -/
theorem requestIds_strictly_increasing (srcs : List AllocSource) :
    allocTrace busInit srcs = List.range' 1 srcs.length ∧
    (allocTrace busInit srcs).Pairwise (· < ·) := by
  have h := allocTrace_range srcs busInit
  refine ⟨h, ?_⟩
  rw [h]
  exact List.pairwise_lt_range' 1 srcs.length

/-! ## Router helper lemmas -/

theorem knownChannel_elim (c : Option String) (h : knownChannel c = false) :
    c ≠ some SERVICE_FRAMEWORK_RPC_CHANNEL ∧ c ≠ some SERVICE_FRAMEWORK_EVENT_CHANNEL ∧
    c ≠ some SERVICE_FRAMEWORK3_CHANNEL := by
  simp only [knownChannel, Bool.or_eq_false_iff, decide_eq_false_iff_not] at h
  exact ⟨h.1.1, h.1.2, h.2⟩

theorem handle_stream_registered (s : BusState) (m : Message) (ev : EventField)
    (eid : Nat) (em : EmitterObj)
    (hk : knownChannel m.channel = false) (hev : m.event = some ev)
    (hid : ev.eventEmitterId = some eid) (h0 : eid ≠ 0)
    (hlk : tblLookup s.eventEmitters eid = some em) :
    handleSocketMessage s m =
      .ok (emitterEmitState s eid em ev.type,
           [.emitterDeliver eid ev.type ev.args, .channelBus m.channel m.event]) := by
  obtain ⟨h1, h2, h3⟩ := knownChannel_elim m.channel hk
  simp only [handleSocketMessage, if_neg h1, if_neg h2, if_neg h3, hev, hid, hlk,
    if_pos h0]

theorem handle_stream_unregistered (s : BusState) (m : Message) (ev : EventField)
    (eid : Nat)
    (hk : knownChannel m.channel = false) (hev : m.event = some ev)
    (hid : ev.eventEmitterId = some eid) (h0 : eid ≠ 0)
    (hlk : tblLookup s.eventEmitters eid = none) :
    handleSocketMessage s m = .ok (s, [.logError "eventEmitter not found"]) := by
  obtain ⟨h1, h2, h3⟩ := knownChannel_elim m.channel hk
  simp only [handleSocketMessage, if_neg h1, if_neg h2, if_neg h3, hev, hid, hlk,
    if_pos h0]

theorem tblLookup_tblInsert (t : List (Nat × EmitterObj)) (k : Nat) (v : EmitterObj) :
    tblLookup (tblInsert t k v) k = some v := by
  simp [tblInsert, tblLookup]

theorem tblLookup_tblErase (t : List (Nat × EmitterObj)) (k : Nat) :
    tblLookup (tblErase t k) k = none := by
  induction t with
  | nil => rfl
  | cons p rest ih =>
      obtain ⟨k2, v⟩ := p
      by_cases h : k2 = k
      · simp [tblErase, h, ih]
      · simp [tblErase, tblLookup, h, ih]

/-! ## C3 -/

/-- C3 counterexample: a stream-event envelope whose emitterId (42) is
registered is delivered to that emitter AND also re-broadcast on the
generic channel bus — two destinations, refuting that such an envelope is
"delivered only to that emitter and not also re-broadcast". -/
theorem router_double_dispatch_cex :
    dispatchTargets (handleSocketMessage busWith42 (streamMsg 42 "data")) =
      [Target.emitter, Target.bus] := by decide

/-- C3 (amended): the router dispatches every non-throwing inbound
envelope to exactly one destination, except a stream-event envelope whose
emitterId is registered: that one is delivered to the per-id emitter and
then also re-broadcast on the generic channel bus. -/
theorem router_dispatch_targets (s : BusState) (m : Message)
    (out : BusState × List Dispatch) (h : handleSocketMessage s m = .ok out) :
    (∃ t, out.2.map Dispatch.target = [t]) ∨
    (out.2.map Dispatch.target = [Target.emitter, Target.bus] ∧
      ∃ ev eid, m.event = some ev ∧ ev.eventEmitterId = some eid ∧
        (tblLookup s.eventEmitters eid).isSome = true) := by
  unfold handleSocketMessage at h
  split at h
  · split at h
    · exact Except.noConfusion h
    · cases h
      exact Or.inl ⟨Target.rpc, rfl⟩
  · split at h
    · split at h
      · exact Except.noConfusion h
      · cases h
        exact Or.inl ⟨Target.sfEvent, rfl⟩
    · split at h
      · split at h
        · exact Except.noConfusion h
        · cases h
          exact Or.inl ⟨Target.sf3, rfl⟩
      · split at h
        · rename_i ev hev
          split at h
          · rename_i eid hid
            split at h
            · split at h
              · cases h
                exact Or.inl ⟨Target.log, rfl⟩
              · rename_i em hlk
                cases h
                exact Or.inr ⟨rfl, ev, eid, hev, hid, by rw [hlk]; rfl⟩
            · cases h
              exact Or.inl ⟨Target.bus, rfl⟩
          · cases h
            exact Or.inl ⟨Target.bus, rfl⟩
        · cases h
          exact Or.inl ⟨Target.bus, rfl⟩

/-- Witness for the amended C3 theorem at a concrete input: a message with
no structured channel and no event goes to the generic channel bus alone. -/
theorem router_dispatch_targets_witness :
    (∃ t, ([Dispatch.channelBus (some "some_channel") none].map Dispatch.target) = [t]) ∨
    (([Dispatch.channelBus (some "some_channel") none].map Dispatch.target) =
        [Target.emitter, Target.bus] ∧
      ∃ ev eid, genericMsg.event = some ev ∧ ev.eventEmitterId = some eid ∧
        (tblLookup busInit.eventEmitters eid).isSome = true) :=
  router_dispatch_targets busInit genericMsg
    (busInit, [Dispatch.channelBus (some "some_channel") none]) rfl

/-! ## C4 -/

/-- C4 counterexample: in the state reached by `close()`, `callMethod` does
not fail with a "connection closed" error — its promise resolves with
`undefined` (after logging), refuting the claimed failure mode. -/
theorem closed_callMethod_resolves_cex :
    close busInit = .ok closedBus ∧
    callMethodPromise (callMethod closedBus "svc" "m" []) =
      PromiseStart.resolvedUndefined :=
  ⟨rfl, rfl⟩

/-- C4 (amended): if the connection is already closed at call time, nothing
is sent over the transport, but the failure modes differ from the claim:
`callMethod` logs and resolves with `undefined`, while
`callServiceFrameworkMethod` rejects with the TypeError raised by
`this.socket.send` on the nulled socket, not with a "connection closed"
error. -/
theorem closed_calls_send_nothing (s : BusState) (serviceName methodName : String)
    (methodArgs : List JsValue) (h : s.socket = false) :
    callMethodPromise (callMethod s serviceName methodName methodArgs) =
      PromiseStart.resolvedUndefined ∧
    (callServiceFrameworkMethodSend s serviceName methodName methodArgs).2 =
      .error .typeError := by
  constructor
  · simp [callMethod, callMethodPromise, h]
  · simp [callServiceFrameworkMethodSend, allocRequestId, h]

/-- Witness for the amended C4 theorem at the concrete closed state. -/
theorem closed_calls_send_nothing_witness :
    callMethodPromise (callMethod closedBus "svc" "m" []) =
      PromiseStart.resolvedUndefined ∧
    (callServiceFrameworkMethodSend closedBus "svc" "m" []).2 = .error .typeError :=
  closed_calls_send_nothing closedBus "svc" "m" [] rfl

/-! ## C5 -/

/-- C5: a registered stream emitter is removed from `_eventEmitters`
exactly by the first occurrence of one of its terminal event names (the
table entry is erased precisely when the delivered type is terminal, and
the erased id no longer resolves), and any inbound event for an id absent
from the table is logged at error level and dropped without being
delivered and without throwing. -/
theorem streamEmitter_removed_once :
    (∀ (s : BusState) (m : Message) (ev : EventField) (eid : Nat) (em : EmitterObj)
        (ty : String),
      knownChannel m.channel = false → m.event = some ev →
      ev.eventEmitterId = some eid → eid ≠ 0 → ev.type = some ty →
      tblLookup s.eventEmitters eid = some em →
      handleSocketMessage s m =
        .ok ((if ty ∈ em.onceDispose then
                { s with eventEmitters := tblErase s.eventEmitters eid } else s),
             [.emitterDeliver eid (some ty) ev.args, .channelBus m.channel m.event]) ∧
      tblLookup (tblErase s.eventEmitters eid) eid = none) ∧
    (∀ (s : BusState) (m : Message) (ev : EventField) (eid : Nat),
      knownChannel m.channel = false → m.event = some ev →
      ev.eventEmitterId = some eid → eid ≠ 0 →
      tblLookup s.eventEmitters eid = none →
      handleSocketMessage s m = .ok (s, [.logError "eventEmitter not found"])) := by
  constructor
  · intro s m ev eid em ty hk hev hid h0 hty hlk
    refine ⟨?_, tblLookup_tblErase s.eventEmitters eid⟩
    have h := handle_stream_registered s m ev eid em hk hev hid h0 hlk
    rw [hty] at h
    exact h
  · intro s m ev eid hk hev hid h0 hlk
    exact handle_stream_unregistered s m ev eid hk hev hid h0 hlk

/-- Witness for C5 at the spec's concrete scenario: after `consumeStream(42)`
has registered emitter 42, an inbound end event erases the entry (and 42
no longer resolves), and a stray data event for the unregistered id 42 is
only logged. -/
theorem streamEmitter_removed_once_witness :
    (handleSocketMessage busWith42 (streamMsg 42 "end") =
      .ok ((if "end" ∈ emitter42.onceDispose then
              { busWith42 with eventEmitters := tblErase busWith42.eventEmitters 42 }
            else busWith42),
           [Dispatch.emitterDeliver 42 (some "end") (streamEvent 42 "end").args,
            Dispatch.channelBus (streamMsg 42 "end").channel (streamMsg 42 "end").event]) ∧
      tblLookup (tblErase busWith42.eventEmitters 42) 42 = none) ∧
    handleSocketMessage busInit (streamMsg 42 "data") =
      .ok (busInit, [Dispatch.logError "eventEmitter not found"]) :=
  ⟨streamEmitter_removed_once.1 busWith42 (streamMsg 42 "end") (streamEvent 42 "end")
      42 emitter42 "end" (by decide) rfl rfl (by decide) rfl rfl,
   streamEmitter_removed_once.2 busInit (streamMsg 42 "data") (streamEvent 42 "data")
      42 (by decide) rfl rfl (by decide) rfl⟩

/-! ## C6 -/

theorem stepSub_inv (s : SubscriptionState) (e : SubEvent)
    (h1 : s.unsubscribeSent = true → s.subscribeResolved = true)
    (h2 : s.disposed = true → s.listenerActive = false) :
    ((stepSub s e).unsubscribeSent = true → (stepSub s e).subscribeResolved = true) ∧
    ((stepSub s e).disposed = true → (stepSub s e).listenerActive = false) := by
  cases e with
  | subscribeAck => exact ⟨fun _ => rfl, h2⟩
  | dispose => exact ⟨fun hu => h1 hu, fun _ => rfl⟩
  | thenContinuation =>
      by_cases hc : s.disposed = true ∧ s.subscribeResolved = true ∧
          s.unsubscribeSent = false
      · simp only [stepSub, if_pos hc]
        exact ⟨fun _ => hc.2.1, fun _ => h2 hc.1⟩
      · simp only [stepSub, if_neg hc]
        exact ⟨h1, h2⟩

theorem runSub_inv (evs : List SubEvent) :
    ∀ s : SubscriptionState,
      (s.unsubscribeSent = true → s.subscribeResolved = true) →
      (s.disposed = true → s.listenerActive = false) →
      ((runSub s evs).unsubscribeSent = true →
        (runSub s evs).subscribeResolved = true) ∧
      ((runSub s evs).disposed = true → (runSub s evs).listenerActive = false) := by
  induction evs with
  | nil => intro s h1 h2; exact ⟨h1, h2⟩
  | cons e rest ih =>
      intro s h1 h2
      have hs := stepSub_inv s e h1 h2
      exact ih (stepSub s e) hs.1 hs.2

/-- C6: for every subscription created by `registerEventListener`, in any
reachable state the unsubscribeEvent RPC has been issued only if the
subscribeEvent RPC has settled; once disposed the local callback is off
the event emitter; and disposal removes the local callback synchronously
(in the very step that runs `dispose`). -/
theorem dispose_sync_and_unsubscribe_ordered (evs : List SubEvent) :
    ((runSub subInit evs).unsubscribeSent = true →
      (runSub subInit evs).subscribeResolved = true) ∧
    ((runSub subInit evs).disposed = true →
      (runSub subInit evs).listenerActive = false) ∧
    (stepSub (runSub subInit evs) SubEvent.dispose).listenerActive = false := by
  have h := runSub_inv evs subInit
    (fun hu => absurd hu (by decide)) (fun hd => absurd hd (by decide))
  exact ⟨h.1, h.2, rfl⟩

/-! ## C7 -/

/-- C7 counterexample: an envelope carrying the rpc-response channel
discriminator but no `requestId` makes `_handleSocketMessage` throw the
TypeError of `requestId.toString()` on undefined, instead of logging and
dropping the message. -/
theorem handler_throws_on_missing_requestId :
    handleSocketMessage busInit noReqIdMsg = .error .typeError := rfl

/-- C7 (amended): the inbound message handler throws exactly on the
envelopes with a known channel discriminator whose required field is
missing (rpc-response or sf3 without `requestId`, event-broadcast without
`event`); every other envelope — including every envelope without a
structured discriminator — is handled without throwing. -/
theorem handler_throws_iff_missing_field (s : BusState) (m : Message) :
    isOkB (handleSocketMessage s m) = envelopeFieldsOk m := by
  by_cases h1 : m.channel = some SERVICE_FRAMEWORK_RPC_CHANNEL
  · simp only [handleSocketMessage, envelopeFieldsOk, if_pos h1]
    cases m.requestId <;> rfl
  · by_cases h2 : m.channel = some SERVICE_FRAMEWORK_EVENT_CHANNEL
    · simp only [handleSocketMessage, envelopeFieldsOk, if_neg h1, if_pos h2]
      cases m.event <;> rfl
    · by_cases h3 : m.channel = some SERVICE_FRAMEWORK3_CHANNEL
      · simp only [handleSocketMessage, envelopeFieldsOk, if_neg h1, if_neg h2,
          if_pos h3]
        cases m.requestId <;> rfl
      · simp only [handleSocketMessage, envelopeFieldsOk, if_neg h1, if_neg h2,
          if_neg h3]
        cases m.event with
        | none => rfl
        | some ev =>
            obtain ⟨nm, eargs, eidOpt, tyOpt⟩ := ev
            cases eidOpt with
            | none => rfl
            | some eid =>
                by_cases h0 : eid = 0
                · subst h0
                  rfl
                · simp only [isOkB, h0, ne_eq, not_false_eq_true, if_true]
                  cases hlk : tblLookup s.eventEmitters eid <;> rfl

/-! ## C8 -/

/-- C8: an inbound rpc-response envelope whose `requestId` matches no
pending request is handled without error, produces only the (listenerless)
emit on the RPC emitter, and leaves the entire connection state — pending
listeners, emitter table, counter, socket — unchanged. -/
theorem unmatched_rpcResponse_noop (s : BusState) (m : Message) (rid : Nat)
    (h1 : m.channel = some SERVICE_FRAMEWORK_RPC_CHANNEL)
    (h2 : m.requestId = some rid)
    (h3 : rid ∉ s.pendingRpc) :
    handleSocketMessage s m = .ok (s, [.rpcResponse rid m.error m.result]) := by
  simp only [handleSocketMessage, if_pos h1, h2, List.erase_of_not_mem h3]

/-- Witness for C8: an rpc-response for the never-issued id 5 arriving at a
fresh bus leaves the state exactly `busInit`. -/
theorem unmatched_rpcResponse_noop_witness :
    handleSocketMessage busInit (rpcRespMsg 5) =
      .ok (busInit, [Dispatch.rpcResponse 5 (rpcRespMsg 5).error (rpcRespMsg 5).result]) :=
  unmatched_rpcResponse_noop busInit (rpcRespMsg 5) 5 rfl rfl (by decide)

/-! ## C9 -/

/-- C9 (code bug, evaluated at the failing input): a second `close()` call
throws the TypeError of `this.socket.close()` on null instead of being a
no-op; `close()` leaves a pending RPC (id 1) in the listener table rather
than rejecting it with a "connection closed" error, so that call settles
only when its own timer fires with a Timeout rejection. -/
theorem close_not_idempotent_and_pending_kept :
    (close busInit).bind close = .error .typeError ∧
    close busPending1 =
      .ok { socket := false, rpcRequestId := 2, pendingRpc := [1], eventEmitters := [] } ∧
    (runCall "svc" "m" 7 (initCall 1) [CallEvent.timerFire]).settlement =
      Settlement.rejectedWith (.str (timeoutMessage 7 "svc" "m")) :=
  ⟨rfl, rfl, rfl⟩

/-! ## C10 -/

/-- C10: `consumeEventEmitter` stores the new emitter in `_eventEmitters`
synchronously, before awaiting the remote subscribe call, so in the state
it leaves behind the id resolves to the fresh emitter and any inbound
stream event for that id — even one arriving while the subscribe round
trip is still in flight — is delivered to the emitter rather than dropped
as unknown. -/
theorem consume_registers_before_subscribe (s : BusState) (eid : Nat)
    (names : List String) (m : Message) (ev : EventField) (ty : String)
    (hk : knownChannel m.channel = false) (hev : m.event = some ev)
    (hid : ev.eventEmitterId = some eid) (h0 : eid ≠ 0) (hty : ev.type = some ty) :
    tblLookup (consumeEventEmitterSync s eid names).eventEmitters eid =
      some { onceDispose := names } ∧
    ∃ s2, handleSocketMessage (consumeEventEmitterSync s eid names) m =
      .ok (s2, [.emitterDeliver eid (some ty) ev.args, .channelBus m.channel m.event]) := by
  have hlk : tblLookup (consumeEventEmitterSync s eid names).eventEmitters eid =
      some { onceDispose := names } := by
    simp [consumeEventEmitterSync, tblLookup_tblInsert]
  refine ⟨hlk, ?_⟩
  have h := handle_stream_registered (consumeEventEmitterSync s eid names) m ev eid
    { onceDispose := names } hk hev hid h0 hlk
  rw [hty] at h
  exact ⟨_, h⟩

/-- Witness for C10 at the spec's scenario: right after the synchronous
phase of `consumeStream(42)` (subscribe still in flight), a data event for
id 42 resolves the emitter and is delivered. -/
theorem consume_registers_before_subscribe_witness :
    tblLookup (consumeStreamSync busInit 42).eventEmitters 42 =
      some { onceDispose := ["end"] } ∧
    ∃ s2, handleSocketMessage (consumeStreamSync busInit 42) (streamMsg 42 "data") =
      .ok (s2, [Dispatch.emitterDeliver 42 (some "data") (streamEvent 42 "data").args,
                Dispatch.channelBus (streamMsg 42 "data").channel
                  (streamMsg 42 "data").event]) :=
  consume_registers_before_subscribe busInit 42 ["end"] (streamMsg 42 "data")
    (streamEvent 42 "data") "data" (by decide) rfl rfl (by decide) rfl

end Nuclide
